import Mathlib

set_option linter.unusedVariables false

/-! Verification development for the stratum dummy-switch SDK
(`stratum/hal/lib/dummy/dummy_sdk.cc`) and the Barefoot id mapper interface
(`stratum/hal/lib/barefoot/bfrt_id_mapper.h`).  The C++ code is shallowly
embedded: member functions become pure functions on an explicit state record,
statuses become a status-code type, and sink channels are opaque handles. -/

/-- Status codes of the `util::Status` / `grpc::Status` values the code
produces (OK is the default-constructed status). -/
inductive StatusCode where
  | Ok
  | NotFound
  | AlreadyExists
  | Unimplemented
  | Internal
  | Aborted
  deriving DecidableEq

/-- Transceiver event payload (`PhalInterface::TransceiverEvent`): slot, port
and state, copied field by field from the request. -/
structure TransceiverEvent where
  slot : Int
  port : Int
  state : Int
  deriving DecidableEq

/-- Modelled from the spec: the request message of the transceiver-state RPC
(the protobuf schema is not among the sources); it carries slot, port and
state. -/
structure TransceiverEventRequest where
  slot : Int
  port : Int
  state : Int
  deriving DecidableEq

/-- One registered transceiver subscriber
(`PhalInterface::TransceiverEventWriter`): an owned sink channel (`none`
models a null or moved-from `unique_ptr`), a priority and the id assigned at
registration. -/
structure TransceiverEventWriter where
  writer : Option Nat
  priority : Int
  id : Int
  deriving DecidableEq

/-- Modelled from the spec: the comparator `TransceiverEventWriterComp`
(declared in `phal_interface.h`, which is not among the sources) orders
subscribers by descending priority. -/
def TransceiverEventWriterComp (a b : TransceiverEventWriter) : Bool :=
  decide (a.priority > b.priority)

/-- Modelled from the spec: the predicate `FindXcvrById` (declared in
`phal_interface.h`, which is not among the sources) matches a subscriber by
its id. -/
def FindXcvrById (id : Int) (w : TransceiverEventWriter) : Bool :=
  w.id == id

/-- Insertion of one subscriber into a list ordered by
`TransceiverEventWriterComp`; an element is placed after every element it does
not strictly precede, so equal priorities keep their existing order. -/
def ordInsert (x : TransceiverEventWriter) :
    List TransceiverEventWriter → List TransceiverEventWriter
  | [] => [x]
  | y :: l => if TransceiverEventWriterComp x y then x :: y :: l else y :: ordInsert x l

/-- Concrete model of the `std::sort` call over `TransceiverEventWriterComp`:
an insertion sort, which is one permitted implementation.  `std::sort` itself
only guarantees a comparator-sorted permutation and leaves the order among
equal-priority elements unspecified; that contract is `IsSortOutcome` below,
and every statement about tie order is made against the contract, never
against this concrete pick. -/
def sortWriters (l : List TransceiverEventWriter) : List TransceiverEventWriter :=
  l.foldl (fun acc x => ordInsert x acc) []

/-- Modelled from the spec: the DummySDK state (the member declarations live
in `dummy_sdk.h`, which is not among the sources; the fields and their initial
values are the ones `dummy_sdk.cc` uses).  Sinks are opaque handles; the
process-wide `external_server_` endpoint handle is `none` when null. -/
structure SDKState where
  inited_ : Bool
  xcvr_writer_id_ : Int
  xcvr_event_writers_ : List TransceiverEventWriter
  node_event_notify_writers_ : List (Nat × Nat)
  chassis_event_notify_writer_ : Option Nat
  external_server_ : Option Nat
  deriving DecidableEq

/-- State established by the `DummySDK` constructor together with the null
process-wide `external_server_` handle. -/
def initialState : SDKState :=
  { inited_ := false
    xcvr_writer_id_ := 0
    xcvr_event_writers_ := []
    node_event_notify_writers_ := []
    chassis_event_notify_writer_ := none
    external_server_ := none }

/-- Association-list lookup, modelling `std::map::find` and hash-map lookup. -/
def alookup {α β : Type} [DecidableEq α] (a : α) : List (α × β) → Option β
  | [] => none
  | kv :: t => if kv.1 = a then some kv.2 else alookup a t

/-- `DummySDK::RegisterTransceiverEventWriter`: allocates the next id,
appends the new subscriber and re-sorts the list with the comparator; the
status is always OK with the new id. -/
def RegisterTransceiverEventWriter (writer : Nat) (priority : Int) (s : SDKState) :
    Int × SDKState :=
  let newId := s.xcvr_writer_id_ + 1
  let elem : TransceiverEventWriter :=
    { writer := some writer, priority := priority, id := newId }
  (newId,
    { s with
      xcvr_writer_id_ := newId
      xcvr_event_writers_ := sortWriters (s.xcvr_event_writers_ ++ [elem]) })

/-- Model of C++ `std::remove_if` on the underlying buffer: the kept elements
are compacted to the front in order, the remaining slots keep their old
values, except that kept elements among them were moved out and are left in
moved-from state (`mv`).  The buffer length never changes; the algorithm
erases nothing by itself. -/
def removeIf {α : Type} (p : α → Bool) (mv : α → α) (l : List α) : List α :=
  let kept := l.filter (fun e => !(p e))
  kept ++ (l.drop kept.length).map (fun e => if p e then e else mv e)

/-- `DummySDK::UnregisterTransceiverEventWriter`: runs `std::remove_if` with
`FindXcvrById` on the subscriber vector, discards the returned iterator and
never erases; always returns OK.  Moving a subscriber struct nulls its
`unique_ptr` sink and copies the scalar fields. -/
def UnregisterTransceiverEventWriter (id : Int) (s : SDKState) : StatusCode × SDKState :=
  (StatusCode.Ok,
    { s with
      xcvr_event_writers_ :=
        removeIf (FindXcvrById id) (fun w => { w with writer := none })
          s.xcvr_event_writers_ })

/-- `DummySDK::TransceiverEventUpdate`: builds a `TransceiverEvent` from the
request and writes it to every registered subscriber in list order; each
write's outcome (`sinkWrite`, indexed by the subscriber id) is discarded, and
the returned status is the default-constructed OK status.  The third component
is the trace of delivery attempts (subscriber element, event, write outcome).
This is the loop's result when every subscriber's sink is live; the execution
on arbitrary states, where a null (moved-from) sink makes the loop dereference
a null pointer, is `TransceiverEventUpdateExec` below. -/
def TransceiverEventUpdate (sinkWrite : Int → Bool) (request : TransceiverEventRequest)
    (s : SDKState) :
    StatusCode × SDKState × List (TransceiverEventWriter × TransceiverEvent × Bool) :=
  (StatusCode.Ok, s,
    s.xcvr_event_writers_.map (fun w =>
      (w, { slot := request.slot, port := request.port, state := request.state },
        sinkWrite w.id)))

/-- Node event record (`DummyNodeEvent`): node id, port id and the status
payload (the opaque `DataResponse` is an opaque code here). -/
structure DummyNodeEvent where
  node_id : Nat
  port_id : Nat
  state_update : Nat
  deriving DecidableEq

/-- `DummySDK::HandlePortStatusUpdate`: looks up the node subscriber; when it
is absent the call fails with NOT_FOUND and delivers nothing; otherwise it
builds the event record and writes it to that single subscriber.  The third
component is the delivery, as sink handle and event. -/
def HandlePortStatusUpdate (node_id port_id : Nat) (state_update : Nat) (s : SDKState) :
    StatusCode × SDKState × Option (Nat × DummyNodeEvent) :=
  match alookup node_id s.node_event_notify_writers_ with
  | none => (StatusCode.NotFound, s, none)
  | some w =>
      (StatusCode.Ok, s,
        some (w, { node_id := node_id, port_id := port_id, state_update := state_update }))

/-- Modelled from the spec: the tagged union of device-status sources of the
request protobuf (schema not among the sources): port (carrying a node id and
a port id), node, port-queue and chassis. -/
inductive StatusSource where
  | port (node_id : Nat) (port_id : Nat)
  | node (node_id : Nat)
  | portQueue (node_id : Nat) (port_id : Nat) (queue_id : Nat)
  | chassis
  deriving DecidableEq

/-- Modelled from the spec: a device-status update request, a source plus an
opaque status payload. -/
structure DeviceStatusUpdateRequest where
  source : StatusSource
  state_update : Nat
  deriving DecidableEq

/-- `DummySDK::DeviceStatusUpdate`: the port source variant forwards to
`HandlePortStatusUpdate` with the node id and port id of the port descriptor;
every other variant returns UNIMPLEMENTED and touches nothing. -/
def DeviceStatusUpdate (request : DeviceStatusUpdateRequest) (s : SDKState) :
    StatusCode × SDKState × Option (Nat × DummyNodeEvent) :=
  match request.source with
  | StatusSource.port nid pid => HandlePortStatusUpdate nid pid request.state_update s
  | _ => (StatusCode.Unimplemented, s, none)

/-- `DummySDK::RegisterNodeEventNotifyWriter`: ALREADY_EXISTS when a writer
for the node id is present; otherwise inserts the writer. -/
def RegisterNodeEventNotifyWriter (node_id : Nat) (writer : Nat) (s : SDKState) :
    StatusCode × SDKState :=
  if (alookup node_id s.node_event_notify_writers_).isSome then
    (StatusCode.AlreadyExists, s)
  else
    (StatusCode.Ok,
      { s with node_event_notify_writers_ :=
          s.node_event_notify_writers_ ++ [(node_id, writer)] })

/-- `DummySDK::UnregisterNodeEventNotifyWriter`: NOT_FOUND when the node id is
absent; otherwise erases the entry. -/
def UnregisterNodeEventNotifyWriter (node_id : Nat) (s : SDKState) : StatusCode × SDKState :=
  match alookup node_id s.node_event_notify_writers_ with
  | none => (StatusCode.NotFound, s)
  | some _ =>
      (StatusCode.Ok,
        { s with node_event_notify_writers_ :=
            s.node_event_notify_writers_.filter (fun kv => kv.1 != node_id) })

/-- `DummySDK::RegisterChassisEventNotifyWriter`: the guard tests the incoming
writer argument, so a non-null writer yields ERR_INTERNAL and leaves the slot
alone; otherwise the (null) writer is stored in the slot. -/
def RegisterChassisEventNotifyWriter (writer : Option Nat) (s : SDKState) :
    StatusCode × SDKState :=
  if writer.isSome then (StatusCode.Internal, s)
  else (StatusCode.Ok, { s with chassis_event_notify_writer_ := writer })

/-- `DummySDK::UnregisterChassisEventNotifyWriter`: unconditionally resets the
slot and returns OK. -/
def UnregisterChassisEventNotifyWriter (s : SDKState) : StatusCode × SDKState :=
  (StatusCode.Ok, { s with chassis_event_notify_writer_ := none })

/-- Environment of one `Start` call: whether `ServerBuilder::BuildAndStart`
yields a server and whether `pthread_create` succeeds. -/
structure StartEnv where
  buildOk : Bool
  threadOk : Bool
  deriving DecidableEq

/-- `DummySDK::Start`: ERR_ABORTED when already started; otherwise assigns
`external_server_` from `BuildAndStart` (null on build failure, which then
returns ERR_INTERNAL); a thread-spawn failure returns ERR_INTERNAL with the
server handle already assigned; otherwise the SDK is marked started. -/
def Start (env : StartEnv) (s : SDKState) : StatusCode × SDKState :=
  if s.inited_ then (StatusCode.Aborted, s)
  else
    let s1 := { s with external_server_ := if env.buildOk then some 1 else none }
    if !env.buildOk then (StatusCode.Internal, s1)
    else if !env.threadOk then (StatusCode.Internal, s1)
    else (StatusCode.Ok, { s1 with inited_ := true })

/-- `DummySDK::Shutdown`: calls `external_server_->Shutdown(...)` with no null
check; the result is `none` exactly when that call dereferences a null handle
(undefined behavior), and otherwise the OK status with the state. -/
def Shutdown (s : SDKState) : Option (StatusCode × SDKState) :=
  match s.external_server_ with
  | none => none
  | some _ => some (StatusCode.Ok, s)

/-- Operations of the SDK surface, for reasoning about call sequences. -/
inductive SDKOp where
  | registerXcvr (writer : Nat) (priority : Int)
  | unregisterXcvr (id : Int)
  | registerNode (node_id writer : Nat)
  | unregisterNode (node_id : Nat)
  | registerChassis (writer : Option Nat)
  | unregisterChassis
  | deviceStatus (request : DeviceStatusUpdateRequest)
  | xcvrEvent (request : TransceiverEventRequest)
  | start (env : StartEnv)
  deriving DecidableEq

/-- State transition of one operation (statuses and delivery traces dropped). -/
def stepOp (s : SDKState) : SDKOp → SDKState
  | SDKOp.registerXcvr w p => (RegisterTransceiverEventWriter w p s).2
  | SDKOp.unregisterXcvr i => (UnregisterTransceiverEventWriter i s).2
  | SDKOp.registerNode n w => (RegisterNodeEventNotifyWriter n w s).2
  | SDKOp.unregisterNode n => (UnregisterNodeEventNotifyWriter n s).2
  | SDKOp.registerChassis w => (RegisterChassisEventNotifyWriter w s).2
  | SDKOp.unregisterChassis => (UnregisterChassisEventNotifyWriter s).2
  | SDKOp.deviceStatus r => (DeviceStatusUpdate r s).2.1
  | SDKOp.xcvrEvent r => (TransceiverEventUpdate (fun _ => true) r s).2.1
  | SDKOp.start e => (Start e s).2

/-- Runs a sequence of operations from the constructed state. -/
def runOps (ops : List SDKOp) : SDKState := ops.foldl stepOp initialState

/-- Holds when no start operation in the sequence reaches a successful
endpoint build. -/
def noSuccessfulBuild (ops : List SDKOp) : Bool :=
  ops.all (fun op => match op with
    | SDKOp.start env => !env.buildOk
    | _ => true)

/-- Triples (id, priority, sink) created by a registration sequence starting
at counter value `c`. -/
def regTriples (c : Int) : List (Nat × Int) → List (Int × Int × Option Nat)
  | [] => []
  | r :: t => (c + 1, r.2, some r.1) :: regTriples (c + 1) t

/-- Projection of a registered subscriber to (id, priority, sink). -/
def writerTriple (w : TransceiverEventWriter) : Int × Int × Option Nat :=
  (w.id, w.priority, w.writer)

/-- Contract of the `std::sort` call over `TransceiverEventWriterComp`: the
output is a permutation of the input in which no element strictly precedes an
earlier one under the comparator.  `std::sort` guarantees nothing more: the
relative order of equal-priority elements is unspecified, so any such
permutation is a permitted outcome. -/
def IsSortOutcome (input out : List TransceiverEventWriter) : Prop :=
  out.Perm input ∧ out.Pairwise (fun a b => TransceiverEventWriterComp b a = false)

/-- One permitted execution of `RegisterTransceiverEventWriter` under the
`std::sort` contract: the counter is incremented, the new subscriber (next id,
requested priority, live sink) is appended, and the subscriber list becomes
any permitted sort outcome; all other fields are unchanged. -/
def RegisterRel (r : Nat × Int) (s sNext : SDKState) : Prop :=
  IsSortOutcome
    (s.xcvr_event_writers_ ++
      [TransceiverEventWriter.mk (some r.1) r.2 (s.xcvr_writer_id_ + 1)])
    sNext.xcvr_event_writers_ ∧
  sNext = { s with
    xcvr_writer_id_ := s.xcvr_writer_id_ + 1
    xcvr_event_writers_ := sNext.xcvr_event_writers_ }

/-- Permitted executions of a whole registration sequence (sink handle,
priority), in order. -/
def RegisterAllRel : List (Nat × Int) → SDKState → SDKState → Prop
  | [], s, sFin => sFin = s
  | r :: t, s, sFin => ∃ s1 : SDKState, RegisterRel r s s1 ∧ RegisterAllRel t s1 sFin

instance (input out : List TransceiverEventWriter) :
    Decidable (IsSortOutcome input out) := by
  unfold IsSortOutcome
  infer_instance

instance (r : Nat × Int) (s sNext : SDKState) : Decidable (RegisterRel r s sNext) := by
  unfold RegisterRel
  infer_instance

/-- Execution of the dispatch loop of `DummySDK::TransceiverEventUpdate`,
null-aware: the loop calls `writer_elem.writer->Write(...)` on every element,
so a subscriber slot whose `unique_ptr` sink is null (a moved-from husk left
behind by the erase-less unregister) makes the call dereference a null
pointer — undefined behavior, modelled as `none`.  When every sink is live
the loop completes with the default OK status, the unchanged state and the
full trace of delivery attempts. -/
def TransceiverEventUpdateExec (sinkWrite : Int → Bool)
    (request : TransceiverEventRequest) (s : SDKState) :
    Option (StatusCode × SDKState × List (TransceiverEventWriter × TransceiverEvent × Bool)) :=
  if s.xcvr_event_writers_.all (fun w => w.writer.isSome) then
    some (StatusCode.Ok, s,
      s.xcvr_event_writers_.map (fun w =>
        (w, { slot := request.slot, port := request.port, state := request.state },
          sinkWrite w.id)))
  else none

/-- Modelled from the spec: the `BfrtIdMapper` mapping state
(`bfrt_id_mapper.cc` is not among the sources; only the header is): the two id
maps, as association lists. -/
structure IdMapperState where
  bfrt_to_p4info_id_ : List (Nat × Nat)
  p4info_to_bfrt_id_ : List (Nat × Nat)
  deriving DecidableEq

/-- Modelled from the spec: one step of `BfrtIdMapper::PushPipelineInfo` for a
logical object (id, symbolic name): a name match against the BfRt objects
inserts both map directions, no match leaves the maps alone. -/
def pushStep (bfrtObjs : List (String × Nat)) (m : IdMapperState) (obj : Nat × String) :
    IdMapperState :=
  match alookup obj.2 bfrtObjs with
  | none => m
  | some bid =>
      { bfrt_to_p4info_id_ := (bid, obj.1) :: m.bfrt_to_p4info_id_
        p4info_to_bfrt_id_ := (obj.1, bid) :: m.p4info_to_bfrt_id_ }

/-- Modelled from the spec: `BfrtIdMapper::PushPipelineInfo` (implementation
not among the sources): iterates every logical object of the P4Info and joins
it by symbolic name against the BfRt objects (name, physical id); matches are
inserted in both directions, objects without a match are omitted; a push
rebuilds the maps from empty. -/
def PushPipelineInfo (p4info : List (Nat × String)) (bfrtObjs : List (String × Nat)) :
    IdMapperState :=
  p4info.foldl (pushStep bfrtObjs)
    { bfrt_to_p4info_id_ := [], p4info_to_bfrt_id_ := [] }

/-- Modelled from the spec: `BfrtIdMapper::GetBfRtId`, P4Info id to BfRt id. -/
def GetBfRtId (m : IdMapperState) (p4info_id : Nat) : Option Nat :=
  alookup p4info_id m.p4info_to_bfrt_id_

/-- Modelled from the spec: `BfrtIdMapper::GetP4InfoId`, BfRt id to P4Info
id. -/
def GetP4InfoId (m : IdMapperState) (bfrt_id : Nat) : Option Nat :=
  alookup bfrt_id m.bfrt_to_p4info_id_

/-- Pairs (logical id, physical id) matched by symbolic name between the two
metadata sources, in metadata order. -/
def matchedPairs (p4info : List (Nat × String)) (bfrtObjs : List (String × Nat)) :
    List (Nat × Nat) :=
  p4info.filterMap (fun obj => (alookup obj.2 bfrtObjs).map (fun bid => (obj.1, bid)))

/-- Membership extracted from a successful association lookup. -/
theorem alookup_mem {α β : Type} [DecidableEq α] {a : α} {b : β} {l : List (α × β)}
    (h : alookup a l = some b) : (a, b) ∈ l := by
  induction l with
  | nil => simp [alookup] at h
  | cons kv t ih =>
      by_cases hk : kv.1 = a
      · simp only [alookup, if_pos hk, Option.some.injEq] at h
        subst hk; subst h
        exact List.mem_cons_self kv t
      · simp only [alookup, if_neg hk] at h
        exact List.mem_cons_of_mem kv (ih h)

/-- A member with a key that occurs only once is found by the lookup. -/
theorem alookup_eq_some_of_mem {α β : Type} [DecidableEq α] {a : α} {b : β}
    {l : List (α × β)} (hmem : (a, b) ∈ l) (hnd : (l.map Prod.fst).Nodup) :
    alookup a l = some b := by
  induction l with
  | nil => simp at hmem
  | cons kv t ih =>
      obtain ⟨k, v⟩ := kv
      simp only [List.map_cons, List.nodup_cons] at hnd
      rcases List.mem_cons.mp hmem with heq | hmem2
      · obtain ⟨rfl, rfl⟩ := Prod.mk.injEq .. ▸ heq
        simp [alookup]
      · have hk : k ≠ a := by
          rintro rfl
          exact hnd.1 (List.mem_map.mpr ⟨(k, b), hmem2, rfl⟩)
        simp only [alookup, if_neg hk]
        exact ih hmem2 hnd.2

/-- Filtering out a key makes its lookup fail. -/
theorem alookup_filter_ne {β : Type} (a : Nat) (l : List (Nat × β)) :
    alookup a (l.filter (fun kv => kv.1 != a)) = none := by
  induction l with
  | nil => rfl
  | cons kv t ih =>
      by_cases h : kv.1 = a
      · simp [List.filter_cons, h, ih]
      · have hb : (kv.1 != a) = true := by simp [bne_iff_ne, h]
        simp [List.filter_cons, hb, alookup, h, ih]

/-- C3: for every non-null writer argument, chassis registration returns the
internal error and leaves the state (in particular the chassis slot)
unchanged; a chassis registration returns OK exactly when the supplied writer
is null. -/
theorem c3_register_chassis_guard :
    ∀ (writer : Nat) (s : SDKState),
      RegisterChassisEventNotifyWriter (some writer) s = (StatusCode.Internal, s) ∧
      ∀ wo : Option Nat,
        ((RegisterChassisEventNotifyWriter wo s).1 = StatusCode.Ok ↔ wo = none) := by
  intro w s
  constructor
  · rfl
  · intro wo
    cases wo <;> simp [RegisterChassisEventNotifyWriter]

/-- C5: dispatching a node event for a node id with no registered subscriber
fails with NotFound and delivers nothing; with a registered subscriber it
delivers exactly one event carrying the node id, port id and status payload to
that subscriber and returns OK. -/
theorem c5_node_dispatch :
    ∀ (node_id port_id state_update : Nat) (s : SDKState),
      (alookup node_id s.node_event_notify_writers_ = none →
        HandlePortStatusUpdate node_id port_id state_update s =
          (StatusCode.NotFound, s, none)) ∧
      (∀ w : Nat, alookup node_id s.node_event_notify_writers_ = some w →
        HandlePortStatusUpdate node_id port_id state_update s =
          (StatusCode.Ok, s,
            some (w, { node_id := node_id, port_id := port_id,
                       state_update := state_update }))) := by
  intro nid pid su s
  constructor
  · intro h; simp [HandlePortStatusUpdate, h]
  · intro w h; simp [HandlePortStatusUpdate, h]

/-- Witness for C5 at concrete inputs: the empty registry yields NotFound with
no delivery; after registering sink 5 for node 1, the event reaches sink 5. -/
theorem c5_witness :
    HandlePortStatusUpdate 1 2 3 initialState = (StatusCode.NotFound, initialState, none) ∧
    HandlePortStatusUpdate 1 2 3 (RegisterNodeEventNotifyWriter 1 5 initialState).2 =
      (StatusCode.Ok, (RegisterNodeEventNotifyWriter 1 5 initialState).2,
        some (5, { node_id := 1, port_id := 2, state_update := 3 })) :=
  ⟨(c5_node_dispatch 1 2 3 initialState).1 (by decide),
   (c5_node_dispatch 1 2 3 (RegisterNodeEventNotifyWriter 1 5 initialState).2).2 5 (by decide)⟩

/-- C6: registering a node subscriber for a node id that already has one fails
with AlreadyExists and returns the state unchanged, so the existing subscriber
is not overwritten. -/
theorem c6_register_node_conflict :
    ∀ (node_id writer : Nat) (s : SDKState),
      (alookup node_id s.node_event_notify_writers_).isSome = true →
      RegisterNodeEventNotifyWriter node_id writer s = (StatusCode.AlreadyExists, s) := by
  intro nid w s h
  simp [RegisterNodeEventNotifyWriter, h]

/-- Witness for C6: a second registration for node 1 fails with AlreadyExists
and leaves the registry as the first registration made it. -/
theorem c6_witness :
    RegisterNodeEventNotifyWriter 1 7 (RegisterNodeEventNotifyWriter 1 5 initialState).2 =
      (StatusCode.AlreadyExists, (RegisterNodeEventNotifyWriter 1 5 initialState).2) :=
  c6_register_node_conflict 1 7 (RegisterNodeEventNotifyWriter 1 5 initialState).2 (by decide)

/-- C7: a device-status update whose source is anything but the port variant
fails with Unimplemented, leaving the state unchanged and delivering nothing;
a port-source update is forwarded to the node-event dispatch keyed by the node
id of the port descriptor. -/
theorem c7_device_status_dispatch :
    ∀ (request : DeviceStatusUpdateRequest) (s : SDKState),
      ((∀ nid pid, request.source ≠ StatusSource.port nid pid) →
        DeviceStatusUpdate request s = (StatusCode.Unimplemented, s, none)) ∧
      (∀ nid pid, request.source = StatusSource.port nid pid →
        DeviceStatusUpdate request s = HandlePortStatusUpdate nid pid request.state_update s) := by
  intro req s
  constructor
  · intro h
    cases hsrc : req.source with
    | port nid pid => exact absurd hsrc (h nid pid)
    | node nid => simp [DeviceStatusUpdate, hsrc]
    | portQueue a b c => simp [DeviceStatusUpdate, hsrc]
    | chassis => simp [DeviceStatusUpdate, hsrc]
  · intro nid pid h
    simp [DeviceStatusUpdate, h]

/-- Witness for C7: a chassis-source update returns Unimplemented with no
delivery, and a port-source update behaves as the node dispatch for its node
id and port id. -/
theorem c7_witness :
    DeviceStatusUpdate { source := StatusSource.chassis, state_update := 3 } initialState =
      (StatusCode.Unimplemented, initialState, none) ∧
    DeviceStatusUpdate { source := StatusSource.port 1 2, state_update := 3 } initialState =
      HandlePortStatusUpdate 1 2 3 initialState :=
  ⟨(c7_device_status_dispatch { source := StatusSource.chassis, state_update := 3 }
      initialState).1 (fun nid pid h => nomatch h),
   (c7_device_status_dispatch { source := StatusSource.port 1 2, state_update := 3 }
      initialState).2 1 2 rfl⟩

/-- C8 (counterexample): registering two equal-priority subscribers and then
unregistering id 1 leaves — through the erase-less remove_if — a moved-from
husk with a null sink in the subscriber list; dispatching on that reachable
state makes the loop call Write through a null pointer (undefined behavior)
instead of returning success, refuting the claim for every state of the
subscriber list. -/
theorem c8_counterexample :
    (runOps [SDKOp.registerXcvr 7 5, SDKOp.registerXcvr 8 5,
        SDKOp.unregisterXcvr 1]).xcvr_event_writers_ =
      [⟨some 8, 5, 2⟩, ⟨none, 5, 2⟩] ∧
    TransceiverEventUpdateExec (fun _ => true) { slot := 1, port := 2, state := 3 }
      (runOps [SDKOp.registerXcvr 7 5, SDKOp.registerXcvr 8 5,
        SDKOp.unregisterXcvr 1]) = none := by
  decide

/-- C8 (amended): on every state whose registered subscribers all have live
sinks — including the empty list — the dispatch execution is defined: it
returns the OK status with the state unchanged, whatever each sink write
returns, and its trace attempts delivery to every currently registered
subscriber in list order; on a state holding a null (moved-from) sink the
execution is undefined behavior instead. -/
theorem c8_amended_dispatch :
    ∀ (sinkWrite : Int → Bool) (request : TransceiverEventRequest) (s : SDKState),
      (s.xcvr_event_writers_.all (fun w => w.writer.isSome) = true →
        ((TransceiverEventUpdateExec sinkWrite request s).map (fun res => res.1)) =
          some StatusCode.Ok ∧
        ((TransceiverEventUpdateExec sinkWrite request s).map (fun res => res.2.1)) =
          some s ∧
        ((TransceiverEventUpdateExec sinkWrite request s).map
            (fun res => res.2.2.map (fun d => d.1))) = some s.xcvr_event_writers_) ∧
      (s.xcvr_event_writers_.all (fun w => w.writer.isSome) = false →
        TransceiverEventUpdateExec sinkWrite request s = none) := by
  intro sw req s
  constructor
  · intro hlive
    refine ⟨?_, ?_, ?_⟩
    · simp [TransceiverEventUpdateExec, hlive]
    · simp [TransceiverEventUpdateExec, hlive]
    · simp [TransceiverEventUpdateExec, hlive, List.map_map, Function.comp_def]
  · intro hdead
    simp [TransceiverEventUpdateExec, hdead]

/-- Witness for the amended C8: after two registrations every sink is live and
a dispatch whose every sink write fails still returns OK, attempting both
subscribers; on the post-unregister husk state the all-live check fails and
the execution is undefined. -/
theorem c8_witness :
    (((TransceiverEventUpdateExec (fun _ => false) { slot := 1, port := 2, state := 3 }
        (runOps [SDKOp.registerXcvr 7 5, SDKOp.registerXcvr 8 5])).map
      (fun res => res.1)) = some StatusCode.Ok ∧
      ((TransceiverEventUpdateExec (fun _ => false) { slot := 1, port := 2, state := 3 }
          (runOps [SDKOp.registerXcvr 7 5, SDKOp.registerXcvr 8 5])).map
        (fun res => res.2.1)) =
        some (runOps [SDKOp.registerXcvr 7 5, SDKOp.registerXcvr 8 5]) ∧
      ((TransceiverEventUpdateExec (fun _ => false) { slot := 1, port := 2, state := 3 }
          (runOps [SDKOp.registerXcvr 7 5, SDKOp.registerXcvr 8 5])).map
        (fun res => res.2.2.map (fun d => d.1))) =
        some (runOps [SDKOp.registerXcvr 7 5,
          SDKOp.registerXcvr 8 5]).xcvr_event_writers_) ∧
    TransceiverEventUpdateExec (fun _ => false) { slot := 1, port := 2, state := 3 }
      (runOps [SDKOp.registerXcvr 7 5, SDKOp.registerXcvr 8 5,
        SDKOp.unregisterXcvr 1]) = none :=
  ⟨(c8_amended_dispatch (fun _ => false) { slot := 1, port := 2, state := 3 }
      (runOps [SDKOp.registerXcvr 7 5, SDKOp.registerXcvr 8 5])).1 (by decide),
   (c8_amended_dispatch (fun _ => false) { slot := 1, port := 2, state := 3 }
      (runOps [SDKOp.registerXcvr 7 5, SDKOp.registerXcvr 8 5,
        SDKOp.unregisterXcvr 1])).2 (by decide)⟩

/-- C2 (code evaluation): after registering one transceiver subscriber (it
gets id 1) and then unregistering id 1, the call reports OK but the subscriber
list still holds that very subscriber, whose sink still receives a dispatched
event: `std::remove_if` without `erase` removes nothing here. -/
theorem c2_unregister_no_erase :
    (UnregisterTransceiverEventWriter 1 (RegisterTransceiverEventWriter 10 5 initialState).2).1 =
      StatusCode.Ok ∧
    (UnregisterTransceiverEventWriter 1 (RegisterTransceiverEventWriter 10 5 initialState).2).2.xcvr_event_writers_ =
      [{ writer := some 10, priority := 5, id := 1 }] ∧
    ((TransceiverEventUpdate (fun _ => true) { slot := 1, port := 2, state := 3 }
        (UnregisterTransceiverEventWriter 1
          (RegisterTransceiverEventWriter 10 5 initialState).2).2).2.2.map
      (fun d => d.1.id)) = [1] := by
  decide

/-- C4 (counterexample): with no chassis subscriber registered, the chassis
unregister returns OK, not NotFound, contradicting the claim that it must
fail with NotFound. -/
theorem c4_counterexample :
    initialState.chassis_event_notify_writer_ = none ∧
    UnregisterChassisEventNotifyWriter initialState = (StatusCode.Ok, initialState) ∧
    (UnregisterChassisEventNotifyWriter initialState).1 ≠ StatusCode.NotFound := by
  decide

/-- C4 (amended): unregistering a node subscriber fails with NotFound when the
node id is absent and otherwise removes it, while the chassis unregister
always succeeds and clears the slot, even when nothing was registered. -/
theorem c4_amended_unregister :
    ∀ (node_id : Nat) (s : SDKState),
      (alookup node_id s.node_event_notify_writers_ = none →
        UnregisterNodeEventNotifyWriter node_id s = (StatusCode.NotFound, s)) ∧
      ((alookup node_id s.node_event_notify_writers_).isSome = true →
        (UnregisterNodeEventNotifyWriter node_id s).1 = StatusCode.Ok ∧
        alookup node_id
          (UnregisterNodeEventNotifyWriter node_id s).2.node_event_notify_writers_ = none) ∧
      UnregisterChassisEventNotifyWriter s =
        (StatusCode.Ok, { s with chassis_event_notify_writer_ := none }) := by
  intro nid s
  refine ⟨?_, ?_, rfl⟩
  · intro h; simp [UnregisterNodeEventNotifyWriter, h]
  · intro h
    rcases Option.isSome_iff_exists.mp h with ⟨w, hw⟩
    refine ⟨?_, ?_⟩
    · simp [UnregisterNodeEventNotifyWriter, hw]
    · simp only [UnregisterNodeEventNotifyWriter, hw]
      exact alookup_filter_ne nid s.node_event_notify_writers_

/-- Witness for the amended C4: node 1 unregister on the empty registry yields
NotFound; after registering node 1 it yields OK and removes the entry; the
chassis unregister on the empty state returns OK and a cleared slot. -/
theorem c4_witness :
    UnregisterNodeEventNotifyWriter 1 initialState = (StatusCode.NotFound, initialState) ∧
    ((UnregisterNodeEventNotifyWriter 1
        (RegisterNodeEventNotifyWriter 1 5 initialState).2).1 = StatusCode.Ok ∧
      alookup 1 (UnregisterNodeEventNotifyWriter 1
        (RegisterNodeEventNotifyWriter 1 5 initialState).2).2.node_event_notify_writers_ =
        none) ∧
    UnregisterChassisEventNotifyWriter initialState =
      (StatusCode.Ok, { initialState with chassis_event_notify_writer_ := none }) :=
  ⟨(c4_amended_unregister 1 initialState).1 (by decide),
   (c4_amended_unregister 1 (RegisterNodeEventNotifyWriter 1 5 initialState).2).2.1 (by decide),
   (c4_amended_unregister 1 initialState).2.2⟩

/-- C10 (counterexample): starting from the constructed state with a
successful endpoint build but a failed thread spawn, Start returns an error
(never succeeded), yet the endpoint handle is set and Shutdown does not
dereference a null handle — refuting the claim that Shutdown dereferences a
null handle on every instance on which Start never succeeded. -/
theorem c10_counterexample :
    (Start { buildOk := true, threadOk := false } initialState).1 = StatusCode.Internal ∧
    (Start { buildOk := true, threadOk := false } initialState).1 ≠ StatusCode.Ok ∧
    (Start { buildOk := true, threadOk := false } initialState).2.external_server_ ≠ none ∧
    (Shutdown (Start { buildOk := true, threadOk := false } initialState).2).isSome = true := by
  decide

/-- No operation other than Start ever assigns the endpoint handle. -/
theorem stepOp_server_eq (s : SDKState) (op : SDKOp)
    (h : ∀ env, op ≠ SDKOp.start env) :
    (stepOp s op).external_server_ = s.external_server_ := by
  cases op with
  | start env => exact absurd rfl (h env)
  | registerXcvr w p => rfl
  | unregisterXcvr i => rfl
  | registerNode n w =>
      simp only [stepOp, RegisterNodeEventNotifyWriter]
      split <;> rfl
  | unregisterNode n =>
      simp only [stepOp, UnregisterNodeEventNotifyWriter]
      split <;> rfl
  | registerChassis w =>
      simp only [stepOp, RegisterChassisEventNotifyWriter]
      split <;> rfl
  | unregisterChassis => rfl
  | deviceStatus r =>
      simp only [stepOp, DeviceStatusUpdate]
      split
      · simp only [HandlePortStatusUpdate]
        split <;> rfl
      · rfl
  | xcvrEvent r => rfl

/-- A Start call whose endpoint build fails leaves the handle null. -/
theorem start_no_build_server_none (env : StartEnv) (s : SDKState)
    (hb : env.buildOk = false) (hs : s.external_server_ = none) :
    (Start env s).2.external_server_ = none := by
  by_cases hi : s.inited_ <;> simp [Start, hi, hb, hs]

/-- Along any operation sequence with no successful endpoint build, the
handle stays null. -/
theorem foldl_stepOp_server_none :
    ∀ (ops : List SDKOp) (s : SDKState),
      noSuccessfulBuild ops = true → s.external_server_ = none →
      (ops.foldl stepOp s).external_server_ = none := by
  intro ops
  induction ops with
  | nil => intro s _ hs; simpa using hs
  | cons op t ih =>
      intro s hall hs
      simp only [noSuccessfulBuild, List.all_cons, Bool.and_eq_true] at hall
      refine ih (stepOp s op) ?_ ?_
      · exact hall.2
      · cases hop : op with
        | start env =>
            have hb : env.buildOk = false := by
              have := hall.1
              rw [hop] at this
              simpa using this
            exact start_no_build_server_none env s hb hs
        | registerXcvr w p => rw [stepOp_server_eq s _ (by simp)]; exact hs
        | unregisterXcvr i => rw [stepOp_server_eq s _ (by simp)]; exact hs
        | registerNode n w => rw [stepOp_server_eq s _ (by simp)]; exact hs
        | unregisterNode n => rw [stepOp_server_eq s _ (by simp)]; exact hs
        | registerChassis w => rw [stepOp_server_eq s _ (by simp)]; exact hs
        | unregisterChassis => rw [stepOp_server_eq s _ (by simp)]; exact hs
        | deviceStatus r => rw [stepOp_server_eq s _ (by simp)]; exact hs
        | xcvrEvent r => rw [stepOp_server_eq s _ (by simp)]; exact hs

/-- C10 (amended): Shutdown accesses the endpoint handle with no null guard,
and only a Start call that reaches a successful endpoint build sets the
handle; hence after any operation sequence in which no Start achieved a
successful build — in particular when Start was never called — the handle is
still null and Shutdown dereferences a null handle. -/
theorem c10_amended_shutdown_null :
    ∀ ops : List SDKOp, noSuccessfulBuild ops = true →
      (runOps ops).external_server_ = none ∧ Shutdown (runOps ops) = none := by
  intro ops h
  have hnone : (runOps ops).external_server_ = none :=
    foldl_stepOp_server_none ops initialState h rfl
  exact ⟨hnone, by simp [Shutdown, hnone]⟩

/-- Witness for the amended C10: a failed-build Start followed by a node
registration leaves the handle null and Shutdown dereferences null. -/
theorem c10_amended_witness :
    (runOps [SDKOp.start { buildOk := false, threadOk := true },
      SDKOp.registerNode 1 2]).external_server_ = none ∧
    Shutdown (runOps [SDKOp.start { buildOk := false, threadOk := true },
      SDKOp.registerNode 1 2]) = none :=
  c10_amended_shutdown_null
    [SDKOp.start { buildOk := false, threadOk := true }, SDKOp.registerNode 1 2]
    (by decide)

/-- Every sink recorded by a registration sequence is live. -/
theorem regTriples_sink_some :
    ∀ (regs : List (Nat × Int)) (c : Int) (x : Int × Int × Option Nat),
      x ∈ regTriples c regs → x.2.2.isSome = true := by
  intro regs
  induction regs with
  | nil => intro c x h; simp [regTriples] at h
  | cons r t ih =>
      intro c x h
      rcases List.mem_cons.mp h with rfl | h2
      · rfl
      · exact ih (c + 1) x h2

/-- A permitted registration step increments the id counter. -/
theorem registerRel_counter {r : Nat × Int} {s sNext : SDKState}
    (h : RegisterRel r s sNext) :
    sNext.xcvr_writer_id_ = s.xcvr_writer_id_ + 1 := by
  rw [h.2]

/-- Along any permitted registration execution, the subscriber triples are a
permutation of the start state's triples plus the accumulated registrations. -/
theorem registerAllRel_triples :
    ∀ (regs : List (Nat × Int)) (s sFin : SDKState),
      RegisterAllRel regs s sFin →
      ((sFin.xcvr_event_writers_.map writerTriple).Perm
        ((s.xcvr_event_writers_.map writerTriple) ++
          regTriples s.xcvr_writer_id_ regs)) := by
  intro regs
  induction regs with
  | nil =>
      intro s sFin h
      rw [show sFin = s from h]
      simp [regTriples]
  | cons r t ih =>
      intro s sFin h
      rcases h with ⟨s1, hstep, hrest⟩
      have hperm1 : (s1.xcvr_event_writers_.map writerTriple).Perm
          ((s.xcvr_event_writers_ ++
            [TransceiverEventWriter.mk (some r.1) r.2 (s.xcvr_writer_id_ + 1)]).map
            writerTriple) := hstep.1.1.map writerTriple
      have hrec := ih s1 sFin hrest
      rw [registerRel_counter hstep] at hrec
      refine hrec.trans ?_
      have h2 := hperm1.append_right (regTriples (s.xcvr_writer_id_ + 1) t)
      refine h2.trans ?_
      simp [List.map_append, writerTriple, regTriples, List.append_assoc]

/-- Along any permitted execution, the final subscriber list satisfies the
sort contract's order whenever the start state's list does. -/
theorem registerAllRel_sorted :
    ∀ (regs : List (Nat × Int)) (s sFin : SDKState),
      RegisterAllRel regs s sFin →
      s.xcvr_event_writers_.Pairwise (fun a b => TransceiverEventWriterComp b a = false) →
      sFin.xcvr_event_writers_.Pairwise
        (fun a b => TransceiverEventWriterComp b a = false) := by
  intro regs
  induction regs with
  | nil =>
      intro s sFin h hs
      rw [show sFin = s from h]
      exact hs
  | cons r t ih =>
      intro s sFin h hs
      rcases h with ⟨s1, hstep, hrest⟩
      exact ih s1 sFin hrest hstep.1.2

/-- C1 (counterexample): `std::sort` guarantees no relative order among
equal-priority subscribers, and the permitted execution of registering
A(sink 10, priority 5), B(sink 20, priority 1), C(sink 30, priority 5) in
which the final sort places C before A dispatches in the order C, A, B — not
the claimed order A, C, B. -/
theorem c1_counterexample :
    RegisterAllRel [(10, 5), (20, 1), (30, 5)] initialState
      { inited_ := false, xcvr_writer_id_ := 3,
        xcvr_event_writers_ := [⟨some 30, 5, 3⟩, ⟨some 10, 5, 1⟩, ⟨some 20, 1, 2⟩],
        node_event_notify_writers_ := [], chassis_event_notify_writer_ := none,
        external_server_ := none } ∧
    ((TransceiverEventUpdateExec (fun _ => true) { slot := 1, port := 2, state := 3 }
        { inited_ := false, xcvr_writer_id_ := 3,
          xcvr_event_writers_ := [⟨some 30, 5, 3⟩, ⟨some 10, 5, 1⟩, ⟨some 20, 1, 2⟩],
          node_event_notify_writers_ := [], chassis_event_notify_writer_ := none,
          external_server_ := none }).map
      (fun res => res.2.2.map (fun d => d.1.writer))) =
      some [some 30, some 10, some 20] ∧
    ([some 30, some 10, some 20] : List (Option Nat)) ≠
      [some 10, some 30, some 20] := by
  refine ⟨?_, by decide, by decide⟩
  refine ⟨{ inited_ := false, xcvr_writer_id_ := 1,
            xcvr_event_writers_ := [⟨some 10, 5, 1⟩],
            node_event_notify_writers_ := [], chassis_event_notify_writer_ := none,
            external_server_ := none }, by decide, ?_⟩
  refine ⟨{ inited_ := false, xcvr_writer_id_ := 2,
            xcvr_event_writers_ := [⟨some 10, 5, 1⟩, ⟨some 20, 1, 2⟩],
            node_event_notify_writers_ := [], chassis_event_notify_writer_ := none,
            external_server_ := none }, by decide, ?_⟩
  exact ⟨{ inited_ := false, xcvr_writer_id_ := 3,
           xcvr_event_writers_ := [⟨some 30, 5, 3⟩, ⟨some 10, 5, 1⟩, ⟨some 20, 1, 2⟩],
           node_event_notify_writers_ := [], chassis_event_notify_writer_ := none,
           external_server_ := none }, by decide, rfl⟩

/-- C1 (amended): along every execution of any registration sequence from the
constructed state that the `std::sort` contract permits, dispatching an event
is defined (all sinks live) and returns the OK status with the state
unchanged; its trace attempts exactly the current subscriber list in order;
that order never places a strictly lower priority before a higher one; and
the subscribers are exactly the consecutively-numbered registrations.  The
order among equal-priority subscribers is left unspecified by the code. -/
theorem c1_amended_dispatch_order :
    ∀ (regs : List (Nat × Int)) (sFin : SDKState),
      RegisterAllRel regs initialState sFin →
      ∀ (sinkWrite : Int → Bool) (request : TransceiverEventRequest),
        ((TransceiverEventUpdateExec sinkWrite request sFin).map (fun res => res.1)) =
          some StatusCode.Ok ∧
        ((TransceiverEventUpdateExec sinkWrite request sFin).map (fun res => res.2.1)) =
          some sFin ∧
        ((TransceiverEventUpdateExec sinkWrite request sFin).map
            (fun res => res.2.2.map (fun d => d.1))) = some sFin.xcvr_event_writers_ ∧
        sFin.xcvr_event_writers_.Pairwise
          (fun a b => TransceiverEventWriterComp b a = false) ∧
        (sFin.xcvr_event_writers_.map writerTriple).Perm (regTriples 0 regs) := by
  intro regs sFin hrel sinkWrite request
  have hperm : (sFin.xcvr_event_writers_.map writerTriple).Perm (regTriples 0 regs) := by
    have h := registerAllRel_triples regs initialState sFin hrel
    simpa [initialState] using h
  have hlive : sFin.xcvr_event_writers_.all (fun w => w.writer.isSome) = true := by
    rw [List.all_eq_true]
    intro w hw
    have hmem : writerTriple w ∈ regTriples 0 regs :=
      hperm.mem_iff.mp (List.mem_map.mpr ⟨w, hw, rfl⟩)
    exact regTriples_sink_some regs 0 (writerTriple w) hmem
  have hpw : sFin.xcvr_event_writers_.Pairwise
      (fun a b => TransceiverEventWriterComp b a = false) :=
    registerAllRel_sorted regs initialState sFin hrel List.Pairwise.nil
  refine ⟨?_, ?_, ?_, hpw, hperm⟩
  · simp [TransceiverEventUpdateExec, hlive]
  · simp [TransceiverEventUpdateExec, hlive]
  · simp [TransceiverEventUpdateExec, hlive, List.map_map, Function.comp_def]

/-- Witness for the amended C1: the single permitted execution of registering
sink 10 at priority 5 dispatches one defined OK attempt to that subscriber,
in the contract's order. -/
theorem c1_witness :
    ((TransceiverEventUpdateExec (fun _ => true) { slot := 1, port := 2, state := 3 }
        { inited_ := false, xcvr_writer_id_ := 1,
          xcvr_event_writers_ := [⟨some 10, 5, 1⟩],
          node_event_notify_writers_ := [], chassis_event_notify_writer_ := none,
          external_server_ := none }).map (fun res => res.1)) = some StatusCode.Ok ∧
    ((TransceiverEventUpdateExec (fun _ => true) { slot := 1, port := 2, state := 3 }
        { inited_ := false, xcvr_writer_id_ := 1,
          xcvr_event_writers_ := [⟨some 10, 5, 1⟩],
          node_event_notify_writers_ := [], chassis_event_notify_writer_ := none,
          external_server_ := none }).map (fun res => res.2.1)) =
      some { inited_ := false, xcvr_writer_id_ := 1,
             xcvr_event_writers_ := [⟨some 10, 5, 1⟩],
             node_event_notify_writers_ := [], chassis_event_notify_writer_ := none,
             external_server_ := none } ∧
    ((TransceiverEventUpdateExec (fun _ => true) { slot := 1, port := 2, state := 3 }
        { inited_ := false, xcvr_writer_id_ := 1,
          xcvr_event_writers_ := [⟨some 10, 5, 1⟩],
          node_event_notify_writers_ := [], chassis_event_notify_writer_ := none,
          external_server_ := none }).map
        (fun res => res.2.2.map (fun d => d.1))) =
      some [⟨some 10, 5, 1⟩] ∧
    ([(⟨some 10, 5, 1⟩ : TransceiverEventWriter)]).Pairwise
      (fun a b => TransceiverEventWriterComp b a = false) ∧
    (([(⟨some 10, 5, 1⟩ : TransceiverEventWriter)]).map writerTriple).Perm
      (regTriples 0 [(10, 5)]) :=
  c1_amended_dispatch_order [(10, 5)]
    { inited_ := false, xcvr_writer_id_ := 1,
      xcvr_event_writers_ := [⟨some 10, 5, 1⟩],
      node_event_notify_writers_ := [], chassis_event_notify_writer_ := none,
      external_server_ := none }
    ⟨{ inited_ := false, xcvr_writer_id_ := 1,
       xcvr_event_writers_ := [⟨some 10, 5, 1⟩],
       node_event_notify_writers_ := [], chassis_event_notify_writer_ := none,
       external_server_ := none }, by decide, rfl⟩
    (fun _ => true) { slot := 1, port := 2, state := 3 }

/-- Closed form of the pipeline-push fold: both maps list exactly the matched
pairs, most recent first, on top of the accumulator. -/
theorem pushFold_closed :
    ∀ (p4 : List (Nat × String)) (bf : List (String × Nat)) (m : IdMapperState),
      (p4.foldl (pushStep bf) m).p4info_to_bfrt_id_ =
        (matchedPairs p4 bf).reverse ++ m.p4info_to_bfrt_id_ ∧
      (p4.foldl (pushStep bf) m).bfrt_to_p4info_id_ =
        ((matchedPairs p4 bf).map (fun pr => (pr.2, pr.1))).reverse ++
          m.bfrt_to_p4info_id_ := by
  intro p4
  induction p4 with
  | nil => intro bf m; simp [matchedPairs]
  | cons obj t ih =>
      intro bf m
      cases halook : alookup obj.2 bf with
      | none =>
          have hm : matchedPairs (obj :: t) bf = matchedPairs t bf := by
            simp [matchedPairs, List.filterMap_cons, halook]
          have hfold : (obj :: t).foldl (pushStep bf) m = t.foldl (pushStep bf) m := by
            simp [List.foldl_cons, pushStep, halook]
          rw [hfold, hm]
          exact ih bf m
      | some bid =>
          have hm : matchedPairs (obj :: t) bf = (obj.1, bid) :: matchedPairs t bf := by
            simp [matchedPairs, List.filterMap_cons, halook]
          have hfold : (obj :: t).foldl (pushStep bf) m =
              t.foldl (pushStep bf)
                { bfrt_to_p4info_id_ := (bid, obj.1) :: m.bfrt_to_p4info_id_
                  p4info_to_bfrt_id_ := (obj.1, bid) :: m.p4info_to_bfrt_id_ } := by
            simp [List.foldl_cons, pushStep, halook]
          rw [hfold, hm]
          obtain ⟨ih1, ih2⟩ := ih bf
            { bfrt_to_p4info_id_ := (bid, obj.1) :: m.bfrt_to_p4info_id_
              p4info_to_bfrt_id_ := (obj.1, bid) :: m.p4info_to_bfrt_id_ }
          constructor
          · rw [ih1]; simp [List.reverse_cons, List.append_assoc]
          · rw [ih2]; simp [List.reverse_cons, List.append_assoc]

/-- The logical ids of the matched pairs are a sublist of the metadata's
logical ids. -/
theorem matchedPairs_fst_sublist (p4 : List (Nat × String)) (bf : List (String × Nat)) :
    ((matchedPairs p4 bf).map Prod.fst).Sublist (p4.map Prod.fst) := by
  induction p4 with
  | nil => simp [matchedPairs]
  | cons obj t ih =>
      cases halook : alookup obj.2 bf with
      | none =>
          have hm : matchedPairs (obj :: t) bf = matchedPairs t bf := by
            simp [matchedPairs, List.filterMap_cons, halook]
          rw [hm]
          simpa using ih.cons obj.1
      | some bid =>
          have hm : matchedPairs (obj :: t) bf = (obj.1, bid) :: matchedPairs t bf := by
            simp [matchedPairs, List.filterMap_cons, halook]
          rw [hm]
          simpa using ih.cons₂ obj.1

/-- Pairwise property transported through a filterMap. -/
theorem pairwise_filterMap_of {α β : Type} {R : β → β → Prop} {S : α → α → Prop}
    (f : α → Option β) :
    ∀ {l : List α}, l.Pairwise S →
      (∀ a b, S a b → ∀ x, f a = some x → ∀ y, f b = some y → R x y) →
      (l.filterMap f).Pairwise R := by
  intro l
  induction l with
  | nil => intro _ _; simp
  | cons a t ih =>
      intro hl hcomp
      rcases List.pairwise_cons.mp hl with ⟨hat, ht⟩
      cases hfa : f a with
      | none =>
          simp only [List.filterMap_cons, hfa]
          exact ih ht hcomp
      | some x =>
          simp only [List.filterMap_cons, hfa]
          refine List.pairwise_cons.mpr ⟨?_, ih ht hcomp⟩
          intro y hy
          rcases List.mem_filterMap.mp hy with ⟨b, hb, hfb⟩
          exact hcomp a b (hat b hb) x hfa y hfb

/-- In a list whose second components never repeat, a shared second component
forces equal first components. -/
theorem fst_eq_of_snd_nodup {α β : Type} :
    ∀ (l : List (α × β)), (l.map Prod.snd).Nodup →
      ∀ (a1 a2 : α) (b : β), (a1, b) ∈ l → (a2, b) ∈ l → a1 = a2 := by
  intro l
  induction l with
  | nil => intro _ a1 a2 b h; simp at h
  | cons kv t ih =>
      intro hnd a1 a2 b h1 h2
      obtain ⟨k, v⟩ := kv
      simp only [List.map_cons, List.nodup_cons] at hnd
      rcases List.mem_cons.mp h1 with he1 | ht1 <;>
        rcases List.mem_cons.mp h2 with he2 | ht2
      · injection he1 with e1 _
        injection he2 with e2 _
        rw [e1, e2]
      · injection he1 with e1 eb
        subst eb
        exact absurd (List.mem_map.mpr ⟨(a2, b), ht2, rfl⟩) hnd.1
      · injection he2 with e2 eb
        subst eb
        exact absurd (List.mem_map.mpr ⟨(a1, b), ht1, rfl⟩) hnd.1
      · exact ih hnd.2 a1 a2 b ht1 ht2

/-- With unique names on both sides and unique physical ids, the matched pairs
carry pairwise distinct physical ids. -/
theorem matchedPairs_snd_nodup (p4 : List (Nat × String)) (bf : List (String × Nat))
    (hnames : (p4.map Prod.snd).Nodup) (hvals : (bf.map Prod.snd).Nodup) :
    ((matchedPairs p4 bf).map Prod.snd).Nodup := by
  have h1 : (matchedPairs p4 bf).Pairwise (fun x y => x.2 ≠ y.2) := by
    refine pairwise_filterMap_of
      (fun obj => (alookup obj.2 bf).map (fun bid => (obj.1, bid)))
      (List.pairwise_map.mp hnames) ?_
    intro a b hab x hx y hy
    rcases Option.map_eq_some'.mp hx with ⟨bidA, hA, hxa⟩
    rcases Option.map_eq_some'.mp hy with ⟨bidB, hB, hyb⟩
    subst hxa
    subst hyb
    intro hcon
    simp only at hcon
    subst hcon
    exact hab (fst_eq_of_snd_nodup bf hvals a.2 b.2 bidA (alookup_mem hA) (alookup_mem hB))
  exact List.pairwise_map.mpr h1

/-- C9: after a push, every logical id and physical id matched under the same
symbolic name (given ids unique in each source and names unique in the
protocol metadata) are mapped to each other by the two lookups, so the two
maps are mutually inverse over exactly the matched objects. -/
theorem c9_id_mapper_roundtrip :
    ∀ (p4info : List (Nat × String)) (bfrtObjs : List (String × Nat)),
      (p4info.map Prod.fst).Nodup →
      (p4info.map Prod.snd).Nodup →
      (bfrtObjs.map Prod.snd).Nodup →
      ∀ (l : Nat) (name : String) (p : Nat),
        (l, name) ∈ p4info → alookup name bfrtObjs = some p →
        GetBfRtId (PushPipelineInfo p4info bfrtObjs) l = some p ∧
        GetP4InfoId (PushPipelineInfo p4info bfrtObjs) p = some l := by
  intro p4 bf hid hnm hval l name p hmem hlook
  obtain ⟨hcl1, hcl2⟩ :=
    pushFold_closed p4 bf { bfrt_to_p4info_id_ := [], p4info_to_bfrt_id_ := [] }
  have hmatched : (l, p) ∈ matchedPairs p4 bf :=
    List.mem_filterMap.mpr ⟨(l, name), hmem, by simp [hlook]⟩
  constructor
  · show alookup l (PushPipelineInfo p4 bf).p4info_to_bfrt_id_ = some p
    have hpp : (PushPipelineInfo p4 bf).p4info_to_bfrt_id_ =
        (matchedPairs p4 bf).reverse := by
      simpa [PushPipelineInfo] using hcl1
    rw [hpp]
    apply alookup_eq_some_of_mem
    · exact List.mem_reverse.mpr hmatched
    · rw [List.map_reverse]
      exact List.nodup_reverse.mpr ((matchedPairs_fst_sublist p4 bf).nodup hid)
  · show alookup p (PushPipelineInfo p4 bf).bfrt_to_p4info_id_ = some l
    have hpp : (PushPipelineInfo p4 bf).bfrt_to_p4info_id_ =
        ((matchedPairs p4 bf).map (fun pr => (pr.2, pr.1))).reverse := by
      simpa [PushPipelineInfo] using hcl2
    rw [hpp]
    apply alookup_eq_some_of_mem
    · exact List.mem_reverse.mpr (List.mem_map.mpr ⟨(l, p), hmatched, rfl⟩)
    · rw [List.map_reverse]
      refine List.nodup_reverse.mpr ?_
      have hmm : (((matchedPairs p4 bf).map (fun pr => (pr.2, pr.1))).map Prod.fst) =
          (matchedPairs p4 bf).map Prod.snd := by
        simp [List.map_map, Function.comp_def]
      rw [hmm]
      exact matchedPairs_snd_nodup p4 bf hnm hval

/-- Witness for C9: pushing metadata in which logical id 1 and physical id 100
share the name t1 makes the two lookups mutually inverse at that pair. -/
theorem c9_witness :
    GetBfRtId (PushPipelineInfo [(1, "t1"), (2, "t2")] [("t1", 100), ("t3", 300)]) 1 =
      some 100 ∧
    GetP4InfoId (PushPipelineInfo [(1, "t1"), (2, "t2")] [("t1", 100), ("t3", 300)]) 100 =
      some 1 :=
  c9_id_mapper_roundtrip [(1, "t1"), (2, "t2")] [("t1", 100), ("t3", 300)]
    (by decide) (by decide) (by decide) 1 "t1" 100 (by decide) (by decide)
